import Mathlib

/-!
Verification of the notes-app page (`src/notes-app/app/page.tsx`).

The program is a single static page: a content literal `topics`
(ten topics, each with subtopics, notes and code samples), a helper

  const slugify = (value: string) =>
    value
      .toLowerCase()
      .replace(/[^a-z0-9]+/g, "-")
      .replace(/(^-|-$)+/g, "");

and a renderer `Home` that maps the content literal to a markup tree.

Strings are modelled as `List Char` (with `String` wrappers at the
interface).  JavaScript `toLowerCase` is modelled by its action on the
Basic Latin range (the simple case map `A..Z → a..z`); every string in
the content model is ASCII, where `toLowerCase` is exactly this map.
-/

/-- Membership of a character in the regex class `[a-z0-9]`
(code points 97–122 and 48–57). -/
def isAlnum (c : Char) : Bool :=
  (97 ≤ c.toNat && c.toNat ≤ 122) || (48 ≤ c.toNat && c.toNat ≤ 57)

/-- Model of JavaScript `toLowerCase` on the Basic Latin range: `A`–`Z`
(code points 65–90) map 32 code points up, everything else is fixed. -/
def lowerChar (c : Char) : Char :=
  if 65 ≤ c.toNat ∧ c.toNat ≤ 90 then Char.ofNat (c.toNat + 32) else c

/-- Model of the global replacement `.replace(/[^a-z0-9]+/g, "-")`,
scanning left to right: the flag records whether the scanner is inside a
run of characters outside `[a-z0-9]` whose single hyphen has already been
emitted, so each maximal such run contributes exactly one hyphen. -/
def collapseAux : Bool → List Char → List Char
  | _, [] => []
  | inRun, c :: rest =>
    if isAlnum c then c :: collapseAux false rest
    else if inRun then collapseAux true rest
    else '-' :: collapseAux true rest

/-- The replacement `.replace(/[^a-z0-9]+/g, "-")` starts outside a run. -/
def collapse (l : List Char) : List Char := collapseAux false l

/-- Drop one leading hyphen, if present. -/
def dropLeadHyphen : List Char → List Char
  | '-' :: t => t
  | l => l

/-- Drop one trailing hyphen, if present. -/
def dropTrailHyphen : List Char → List Char
  | [] => []
  | ['-'] => []
  | [c] => [c]
  | c :: rest => c :: dropTrailHyphen rest

/-- Model of `.replace(/(^-|-$)+/g, "")`.  On any string the regex
`(^-|-$)+` can match characters only at the two ends (`^-` only at the
start, `-$` only at the end), so the global replacement removes exactly
one leading hyphen, if present, and one trailing hyphen, if present. -/
def stripEdges (l : List Char) : List Char :=
  dropTrailHyphen (dropLeadHyphen l)

/-- The `slugify` arrow function from `page.tsx`, on character lists:
lowercase, collapse `[^a-z0-9]+` runs to hyphens, strip edge hyphens. -/
def slugify (l : List Char) : List Char :=
  stripEdges (collapse (l.map lowerChar))

/-- `slugify` on `String`, the type at which the page applies it. -/
def slugifyS (s : String) : String :=
  String.mk (slugify s.data)

/-! ### The specification's reference algorithm

Modelled from the spec's words (§4.1): "(a) lowercase the entire string;
(b) replace every maximal run of one-or-more characters outside the set
`[a-z0-9]` with a single hyphen; (c) strip a leading hyphen if present;
(d) strip a trailing hyphen if present."  Step (b) is rendered by a fold
in which a character outside the class contributes a hyphen only when
the already-collapsed remainder does not begin with one, so every
maximal run yields exactly one hyphen. -/

/-- Record one character of a run outside `[a-z0-9]`: the run is
replaced by a single hyphen, so a hyphen is added only when the
collapsed remainder does not already start with the hyphen standing for
the same maximal run. -/
def hyphenate : List Char → List Char
  | '-' :: t => '-' :: t
  | t => '-' :: t

/-- Step (b) of the spec's algorithm: replace every maximal run of
characters outside `[a-z0-9]` with a single hyphen. -/
def collapseSpec : List Char → List Char
  | [] => []
  | c :: rest =>
    if isAlnum c then c :: collapseSpec rest
    else hyphenate (collapseSpec rest)

/-- Step (c) of the spec's algorithm: strip a leading hyphen if present. -/
def stripLeadingSpec (l : List Char) : List Char :=
  if l.head? = some '-' then l.tail else l

/-- Step (d) of the spec's algorithm: strip a trailing hyphen if present. -/
def stripTrailingSpec (l : List Char) : List Char :=
  if l.getLast? = some '-' then l.dropLast else l

/-- The spec's four-step reference algorithm, steps (a)–(d) in order. -/
def slugifySpec (l : List Char) : List Char :=
  stripTrailingSpec (stripLeadingSpec (collapseSpec (l.map lowerChar)))

/-- The spec's reference algorithm on `String`. -/
def slugifySpecS (s : String) : String :=
  String.mk (slugifySpec s.data)

/-! ### Slug shape -/

/-- Recognizer for the rest of a slug after an initial `[a-z0-9]`
character: a hyphen must be followed by an `[a-z0-9]` character. -/
def slugAux : List Char → Bool
  | [] => true
  | ['-'] => false
  | '-' :: c :: rest => isAlnum c && slugAux rest
  | c :: rest => isAlnum c && slugAux rest

/-- Recognizer for the regex `^[a-z0-9]+(-[a-z0-9]+)*$`. -/
def isSlug : List Char → Bool
  | [] => false
  | c :: rest => isAlnum c && slugAux rest

/-- Whether some character of the string lowercases into `[a-z0-9]`. -/
def hasAlnum (l : List Char) : Bool :=
  l.any (fun c => isAlnum (lowerChar c))

/-- No two adjacent hyphens anywhere in the list. -/
def noDoubleHyphen : List Char → Bool
  | [] => true
  | [_] => true
  | c :: d :: rest => !(c == '-' && d == '-') && noDoubleHyphen (d :: rest)

/-! ### The content model (`type CodeSample / Subtopic / Topic`) -/

/-- A code sample: `{ caption: string; content: string }`. -/
structure CodeSample where
  caption : String
  content : String
deriving DecidableEq

/-- A subtopic: `{ title; summary; notes?: string[]; code?: CodeSample[] }`.
The optional fields are `Option`s: `none` models an absent field
(`undefined`), `some []` a present-but-empty array. -/
structure Subtopic where
  title : String
  summary : String
  notes : Option (List String)
  code : Option (List CodeSample)
deriving DecidableEq

/-- A topic: `{ title; summary; subtopics: Subtopic[] }`. -/
structure Topic where
  title : String
  summary : String
  subtopics : List Subtopic
deriving DecidableEq

/-- The authored content literal `const topics: Topic[]` from
`page.tsx`, transcribed field by field.  A subtopic without a `notes`
or `code` field in the source carries `none` here. -/
def topics : List Topic := [
  { title := "1. Array Fundamentals",
    summary := "Understand what arrays are in C, how they behave in memory, and why they are foundational for systems programming.",
    subtopics := [
      { title := "1.1 Definition and Characteristics",
        summary := "An array is a contiguous block of memory that stores elements of the same type. The array name often decays to a pointer to its first element, enabling pointer arithmetic.",
        notes := some [
          "Arrays have a fixed size determined at compile time when declared with a constant expression length.",
          "Indexing starts at 0 and continues sequentially until size - 1.",
          "The compiler does not perform bounds checking, so accessing out-of-range indices causes undefined behavior."
        ],
        code := some [
          { caption := "Visualizing Array Layout",
            content := "#include <stdio.h>\n\nint main(void) \x7b\n    int numbers[4] = \x7b3, 6, 9, 12\x7d;\n\n    printf(\"numbers: %p\\n\", (void *)numbers);\n    for (int i = 0; i < 4; ++i) \x7b\n        printf(\"numbers[%d] = %d at %p\\n\", i, numbers[i], (void *)&numbers[i]);\n    \x7d\n\n    return 0;\n\x7d" }
        ] },
      { title := "1.2 Compile-Time vs. Run-Time Size",
        summary := "C requires the size of a standard array to be known at compile time, but C99 introduced Variable Length Arrays (VLAs) for stack allocation with run-time sizes.",
        notes := some [
          "VLAs are optional in C11 and later; many compilers still support them, but portability may suffer.",
          "Stack size is limited; prefer dynamic allocation for large or unpredictable sizes."
        ],
        code := some [
          { caption := "Variable Length Array (VLA) Example",
            content := "#include <stdio.h>\n\nvoid print_histogram(int count) \x7b\n    int bars[count]; // VLA: size determined at run time\n    for (int i = 0; i < count; ++i) \x7b\n        bars[i] = i * i;\n        printf(\"%d \", bars[i]);\n    \x7d\n    puts(\"\"); // newline\n\x7d\n\nint main(void) \x7b\n    print_histogram(5);\n    return 0;\n\x7d" }
        ] }
    ] },
  { title := "2. Declaring and Initializing Arrays",
    summary := "Explore the syntax for declaring arrays, partial initializations, designated initializers, and how the compiler fills remaining elements.",
    subtopics := [
      { title := "2.1 Declaration Syntax",
        summary := "Array declarations specify the element type, the array name, and the number of elements enclosed in square brackets.",
        notes := some [
          "\x60int scores[10];\x60 declares space for ten \x60int\x60 values initialized with indeterminate contents.",
          "You can declare and initialize simultaneously using curly braces."
        ],
        code := some [
          { caption := "Basic Declarations",
            content := "int primes[5];            // uninitialized\ndouble temperature[365];   // element type double\nchar name[32] = \"Ada\";      // initialized with string literal" }
        ] },
      { title := "2.2 Initializer Lists",
        summary := "Initializer lists allow explicit values. Missing elements are zero-initialized when using static storage duration or explicit initializer braces.",
        notes := some [
          "When the array size is omitted, the compiler infers it from the number of initializer elements.",
          "Designated initializers assign values to specific indices while leaving others zeroed."
        ],
        code := some [
          { caption := "Inferred Length and Designated Initializers",
            content := "#include <stdio.h>\n\nint main(void) \x7b\n    int fibonacci[] = \x7b0, 1, 1, 2, 3, 5, 8\x7d;\n    int weekdays[7] = \x7b[0] = 1, [6] = 7\x7d;\n\n    printf(\"fibonacci has %zu elements\\n\", sizeof fibonacci / sizeof *fibonacci);\n    for (size_t i = 0; i < 7; ++i) \x7b\n        printf(\"weekdays[%zu] = %d\\n\", i, weekdays[i]);\n    \x7d\n    return 0;\n\x7d" }
        ] }
    ] },
  { title := "3. Memory Layout and Indexing",
    summary := "Understand how arrays occupy contiguous memory, how \x60sizeof\x60 works, and practical indexing techniques.",
    subtopics := [
      { title := "3.1 Using sizeof Safely",
        summary := "\x60sizeof\x60 helps compute array length within the same scope as the declaration. Passing arrays to functions removes size information.",
        notes := some [
          "\x60sizeof array / sizeof array[0]\x60 yields the number of elements when \x60array\x60 is an actual array (not a pointer).",
          "Once an array decays to a pointer (e.g., when passed to a function), \x60sizeof\x60 returns the pointer size instead."
        ],
        code := some [
          { caption := "Length Calculation Macro",
            content := "#include <stdio.h>\n\n#define ARRAY_LEN(arr) ((int)(sizeof(arr) / sizeof((arr)[0])))\n\nint main(void) \x7b\n    int data[] = \x7b4, 8, 15, 16, 23, 42\x7d;\n    printf(\"Length = %d\\n\", ARRAY_LEN(data));\n    return 0;\n\x7d" }
        ] },
      { title := "3.2 Bounds Awareness",
        summary := "Because C lacks bounds checking, explicit guards are essential to prevent buffer overruns and undefined behavior.",
        notes := some [
          "Always validate indices before use, especially when data originates from user input or external sources.",
          "Prefer iterating with unsigned types like \x60size_t\x60 when dealing with sizes to avoid negative indices."
        ],
        code := some [
          { caption := "Safe Indexing Wrapper",
            content := "#include <stdbool.h>\n#include <stdio.h>\n\nbool array_get(const int *arr, size_t length, size_t index, int *out_value) \x7b\n    if (index >= length) \x7b\n        return false;\n    \x7d\n    *out_value = arr[index];\n    return true;\n\x7d\n\nint main(void) \x7b\n    int values[] = \x7b10, 20, 30, 40\x7d;\n    int result;\n\n    if (array_get(values, 4, 2, &result)) \x7b\n        printf(\"values[2] = %d\\n\", result);\n    \x7d else \x7b\n        puts(\"Index out of range\");\n    \x7d\n    return 0;\n\x7d" }
        ] }
    ] },
  { title := "4. Core Operations",
    summary := "Implement traversal, searching, inserting, and deleting elements using manual loops because arrays have fixed length.",
    subtopics := [
      { title := "4.1 Traversal and Aggregation",
        summary := "Use loop constructs to process every element. Aggregations like sum or average require iterating over the complete array.",
        notes := some [
          "Prefer \x60size_t\x60 for loop counters to match the type returned by \x60sizeof\x60 computations.",
          "Do not assume arrays are null-terminated unless they represent C strings."
        ],
        code := some [
          { caption := "Sum and Average",
            content := "#include <stdio.h>\n\ndouble average(const double *values, size_t length) \x7b\n    double total = 0.0;\n    for (size_t i = 0; i < length; ++i) \x7b\n        total += values[i];\n    \x7d\n    return length ? total / length : 0.0;\n\x7d\n\nint main(void) \x7b\n    double samples[] = \x7b2.5, 4.0, 3.5, 1.0\x7d;\n    printf(\"Average = %.2f\\n\", average(samples, sizeof samples / sizeof *samples));\n    return 0;\n\x7d" }
        ] },
      { title := "4.2 Searching",
        summary := "Linear search is straightforward. Binary search reduces complexity for sorted arrays but requires manual implementation or \x60<stdlib.h>\x60 utilities.",
        notes := some [
          "Return sentinel values (e.g., \x60-1\x60) or use \x60bool\x60 outs to signal success.",
          "Remember to validate sorted preconditions when using binary search."
        ],
        code := some [
          { caption := "Linear Search Returning Index",
            content := "#include <stdio.h>\n\nint find_index(const int *arr, size_t length, int target) \x7b\n    for (size_t i = 0; i < length; ++i) \x7b\n        if (arr[i] == target) \x7b\n            return (int)i;\n        \x7d\n    \x7d\n    return -1;\n\x7d\n\nint main(void) \x7b\n    int arr[] = \x7b7, 2, 9, 4, 6\x7d;\n    int index = find_index(arr, sizeof arr / sizeof *arr, 4);\n    printf(\"index = %d\\n\", index);\n    return 0;\n\x7d" }
        ] },
      { title := "4.3 Insertion and Deletion",
        summary := "Because arrays are fixed-size, insertion and deletion involve shifting elements. Track the logical length separately from capacity.",
        notes := some [
          "Always check that there is capacity before inserting.",
          "When deleting, shift elements left and optionally zero the vacated slot for clarity."
        ],
        code := some [
          { caption := "Manual Insert With Capacity Tracking",
            content := "#include <stdio.h>\n#include <stdbool.h>\n\n#define CAPACITY 8\n\nbool insert_at(int arr[], size_t *length, int value, size_t pos) \x7b\n    if (*length >= CAPACITY || pos > *length) \x7b\n        return false;\n    \x7d\n    for (size_t i = *length; i > pos; --i) \x7b\n        arr[i] = arr[i - 1];\n    \x7d\n    arr[pos] = value;\n    (*length)++;\n    return true;\n\x7d\n\nint main(void) \x7b\n    int buffer[CAPACITY] = \x7b1, 3, 5, 7, 9\x7d;\n    size_t length = 5;\n\n    insert_at(buffer, &length, 11, 2);\n\n    for (size_t i = 0; i < length; ++i) \x7b\n        printf(\"%d \", buffer[i]);\n    \x7d\n    puts(\"\");\n    return 0;\n\x7d" }
        ] }
    ] },
  { title := "5. Multidimensional Arrays",
    summary := "C stores multidimensional arrays in row-major order. Subscripting cascades to access elements in nested arrays.",
    subtopics := [
      { title := "5.1 Declaration and Initialization",
        summary := "Each dimension size except the first must be specified when passing to functions. Initialization can flatten or nest braces.",
        notes := some [
          "\x60int matrix[2][3]\x60 allocates 2 rows with 3 columns each.",
          "Nested initializers clarify row boundaries and reduce mistakes."
        ],
        code := some [
          { caption := "2D Array Initialization",
            content := "#include <stdio.h>\n\nint main(void) \x7b\n    int matrix[2][3] = \x7b\n        \x7b1, 2, 3\x7d,\n        \x7b4, 5, 6\x7d\n    \x7d;\n\n    for (size_t row = 0; row < 2; ++row) \x7b\n        for (size_t col = 0; col < 3; ++col) \x7b\n            printf(\"%d \", matrix[row][col]);\n        \x7d\n        puts(\"\");\n    \x7d\n    return 0;\n\x7d" }
        ] },
      { title := "5.2 Passing Multidimensional Arrays",
        summary := "When passing to functions, all but the first dimension must be fixed so the compiler can compute row offsets.",
        notes := some [
          "Use macros or \x60const\x60 parameters to make dimensions explicit and maintain readability.",
          "Pointer syntax such as \x60int (*matrix)[3]\x60 declares a pointer to an array of 3 integers."
        ],
        code := some [
          { caption := "Function Receiving 2D Array",
            content := "#include <stdio.h>\n\nvoid print_board(size_t rows, size_t cols, const int board[rows][cols]) \x7b\n    for (size_t r = 0; r < rows; ++r) \x7b\n        for (size_t c = 0; c < cols; ++c) \x7b\n            printf(\"%d \", board[r][c]);\n        \x7d\n        puts(\"\");\n    \x7d\n\x7d\n\nint main(void) \x7b\n    int board[3][3] = \x7b\n        \x7b0, 1, 0\x7d,\n        \x7b1, 0, 1\x7d,\n        \x7b0, 1, 0\x7d\n    \x7d;\n    print_board(3, 3, board);\n    return 0;\n\x7d" }
        ] }
    ] },
  { title := "6. Arrays and Pointers",
    summary := "Array names often decay to pointers, but arrays and pointers are not interchangeable. Understanding differences avoids subtle bugs.",
    subtopics := [
      { title := "6.1 Decay and Differences",
        summary := "An array\x27s name converts to a pointer to its first element in most expressions, yet \x60sizeof\x60 and address-of behave differently.",
        notes := some [
          "\x60sizeof array\x60 yields the entire array size, while \x60sizeof pointer\x60 gives pointer size.",
          "\x60&array\x60 has type pointer to array, distinct from pointer to first element."
        ],
        code := some [
          { caption := "Pointer vs. Array Demonstration",
            content := "#include <stdio.h>\n\nint main(void) \x7b\n    int data[3] = \x7b10, 20, 30\x7d;\n    int *ptr = data;        // decay to pointer\n\n    printf(\"sizeof data = %zu\\n\", sizeof data);\n    printf(\"sizeof ptr = %zu\\n\", sizeof ptr);\n    printf(\"data address = %p\\n\", (void *)data);\n    printf(\"&data address = %p\\n\", (void *)&data);\n    printf(\"ptr address = %p\\n\", (void *)ptr);\n    return 0;\n\x7d" }
        ] },
      { title := "6.2 Pointer Arithmetic",
        summary := "Pointer arithmetic respects element size. Incrementing a pointer moves it by the size of the pointed-to type.",
        notes := some [
          "Never increment past the array\x27s end; keep sentinel pointers to \x60arr + length\x60 as bounds.",
          "Pointer subtraction yields the number of elements between two pointers within the same array."
        ],
        code := some [
          { caption := "Iterating with Pointers",
            content := "#include <stdio.h>\n\nvoid print_with_pointers(const int *begin, const int *end) \x7b\n    for (const int *it = begin; it < end; ++it) \x7b\n        printf(\"%d \", *it);\n    \x7d\n    puts(\"\");\n\x7d\n\nint main(void) \x7b\n    int numbers[] = \x7b2, 4, 6, 8, 10\x7d;\n    print_with_pointers(numbers, numbers + (sizeof numbers / sizeof *numbers));\n    return 0;\n\x7d" }
        ] }
    ] },
  { title := "7. Strings as Character Arrays",
    summary := "C strings are arrays of \x60char\x60 terminated by a null character (\x60\x27\\0\x27\x60). Handling them safely requires length checks.",
    subtopics := [
      { title := "7.1 Initialization and Literals",
        summary := "String literals automatically append the null terminator. Ensure arrays have space for it when specifying fixed sizes.",
        notes := some [
          "\x60char word[] = \"C\";\x60 creates a 2-element array: \x60\x7b\x27C\x27, \x27\\0\x27\x7d\x60.",
          "When copying strings, use functions that limit writes, such as \x60snprintf\x60 or \x60strncpy\x60 (with manual terminator)."
        ],
        code := some [
          { caption := "Safe String Copy Utility",
            content := "#include <stdio.h>\n#include <string.h>\n\nvoid copy_label(char *dest, size_t dest_size, const char *source) \x7b\n    if (dest_size == 0) \x7b\n        return;\n    \x7d\n    snprintf(dest, dest_size, \"%s\", source);\n\x7d\n\nint main(void) \x7b\n    char label[8];\n    copy_label(label, sizeof label, \"Arrays\");\n    printf(\"label = %s\\n\", label);\n    return 0;\n\x7d" }
        ] },
      { title := "7.2 Iterating Over Strings",
        summary := "Terminate loops when the null character is encountered. Avoid overrunning buffers by checking maximum length.",
        notes := some [
          "Use \x60size_t\x60 counters and guard conditions to prevent reading beyond the buffer.",
          "For embedded nulls, treat data as raw arrays rather than C strings."
        ],
        code := some [
          { caption := "Manual strlen Implementation",
            content := "#include <stdio.h>\n\nsize_t my_strlen(const char *s) \x7b\n    const char *p = s;\n    while (*p) \x7b\n        ++p;\n    \x7d\n    return (size_t)(p - s);\n\x7d\n\nint main(void) \x7b\n    const char message[] = \"Array Notes\";\n    printf(\"Length = %zu\\n\", my_strlen(message));\n    return 0;\n\x7d" }
        ] }
    ] },
  { title := "8. Dynamic Arrays",
    summary := "Use dynamic allocation for arrays whose size is known only at run time or exceeds stack limits.",
    subtopics := [
      { title := "8.1 malloc, calloc, and realloc",
        summary := "\x60malloc\x60 allocates uninitialized memory, \x60calloc\x60 zeroes it, and \x60realloc\x60 resizes while preserving contents when possible.",
        notes := some [
          "Always check allocation results against \x60NULL\x60 before dereferencing.",
          "Pair each successful allocation with \x60free\x60 to avoid memory leaks."
        ],
        code := some [
          { caption := "Resizable Dynamic Array",
            content := "#include <stdio.h>\n#include <stdlib.h>\n\ntypedef struct \x7b\n    int *data;\n    size_t length;\n    size_t capacity;\n\x7d IntVector;\n\nint vector_push(IntVector *vec, int value) \x7b\n    if (vec->length == vec->capacity) \x7b\n        size_t new_capacity = vec->capacity ? vec->capacity * 2 : 4;\n        int *new_data = realloc(vec->data, new_capacity * sizeof *new_data);\n        if (!new_data) \x7b\n            return -1;\n        \x7d\n        vec->data = new_data;\n        vec->capacity = new_capacity;\n    \x7d\n    vec->data[vec->length++] = value;\n    return 0;\n\x7d\n\nvoid vector_free(IntVector *vec) \x7b\n    free(vec->data);\n    vec->data = NULL;\n    vec->length = vec->capacity = 0;\n\x7d\n\nint main(void) \x7b\n    IntVector vec = \x7b0\x7d;\n    for (int i = 0; i < 10; ++i) \x7b\n        if (vector_push(&vec, i * i) != 0) \x7b\n            fprintf(stderr, \"Allocation failure\\n\");\n            vector_free(&vec);\n            return 1;\n        \x7d\n    \x7d\n    for (size_t i = 0; i < vec.length; ++i) \x7b\n        printf(\"%d \", vec.data[i]);\n    \x7d\n    puts(\"\");\n    vector_free(&vec);\n    return 0;\n\x7d" }
        ] },
      { title := "8.2 Flexible Array Members",
        summary := "A flexible array member is a struct\x27s last element declared with empty brackets, enabling variable-sized trailing storage.",
        notes := some [
          "Allocate memory with \x60sizeof(struct) + element_count * sizeof(type)\x60.",
          "Commonly used for packet parsing or compound objects that combine metadata with data payloads."
        ],
        code := some [
          { caption := "Flexible Array Member Pattern",
            content := "#include <stdio.h>\n#include <stdlib.h>\n#include <string.h>\n\ntypedef struct \x7b\n    size_t length;\n    char text[];\n\x7d StringBlob;\n\nStringBlob *stringblob_create(const char *source) \x7b\n    size_t len = strlen(source);\n    StringBlob *blob = malloc(sizeof *blob + (len + 1) * sizeof(char));\n    if (!blob) \x7b\n        return NULL;\n    \x7d\n    blob->length = len;\n    memcpy(blob->text, source, len + 1);\n    return blob;\n\x7d\n\nint main(void) \x7b\n    StringBlob *blob = stringblob_create(\"Contiguous arrays rock!\");\n    if (!blob) \x7b\n        return 1;\n    \x7d\n    printf(\"Stored: %s (%zu chars)\\n\", blob->text, blob->length);\n    free(blob);\n    return 0;\n\x7d" }
        ] }
    ] },
  { title := "9. Arrays and Functions",
    summary := "Passing arrays to functions requires explicit size communication. \x60const\x60 qualifiers document intent and enable more optimizations.",
    subtopics := [
      { title := "9.1 Function Parameters",
        summary := "Declaring parameters as \x60int arr[]\x60, \x60int arr[static N]\x60, or \x60int *arr\x60 are equivalent, but qualifiers like \x60static\x60 can instruct the compiler about minimum size.",
        notes := some [
          "\x60static\x60 in parameter declarations indicates that the pointer argument must address at least the specified number of elements.",
          "Use \x60restrict\x60 in C99+ when pointers refer to non-overlapping objects to help vectorization."
        ],
        code := some [
          { caption := "Using static in Parameters",
            content := "#include <stddef.h>\n#include <stdio.h>\n\nvoid normalize(double values[static 4], size_t length) \x7b\n    double max = 0.0;\n    for (size_t i = 0; i < length; ++i) \x7b\n        if (values[i] > max) \x7b\n            max = values[i];\n        \x7d\n    \x7d\n    if (max == 0.0) \x7b\n        return;\n    \x7d\n    for (size_t i = 0; i < length; ++i) \x7b\n        values[i] /= max;\n    \x7d\n\x7d\n\nint main(void) \x7b\n    double metrics[] = \x7b4.0, 8.0, 2.0, 6.0\x7d;\n    normalize(metrics, sizeof metrics / sizeof *metrics);\n    for (size_t i = 0; i < sizeof metrics / sizeof *metrics; ++i) \x7b\n        printf(\"%.2f \", metrics[i]);\n    \x7d\n    puts(\"\");\n    return 0;\n\x7d" }
        ] },
      { title := "9.2 Returning Arrays",
        summary := "Functions cannot return arrays directly, but you can return pointers to static storage, dynamically allocated memory, or wrap arrays in structs.",
        notes := some [
          "Returning pointers to local arrays is undefined because the storage ceases to exist after the function exits.",
          "Struct wrappers provide value semantics and can be copied or returned safely."
        ],
        code := some [
          { caption := "Struct Wrapper Return",
            content := "#include <stdio.h>\n\ntypedef struct \x7b\n    double values[3];\n\x7d Triple;\n\nTriple make_unit_vector(void) \x7b\n    Triple t = \x7b\x7b1.0, 0.0, 0.0\x7d\x7d;\n    return t;\n\x7d\n\nint main(void) \x7b\n    Triple x = make_unit_vector();\n    printf(\"(%.1f, %.1f, %.1f)\\n\", x.values[0], x.values[1], x.values[2]);\n    return 0;\n\x7d" }
        ] }
    ] },
  { title := "10. Best Practices and Common Pitfalls",
    summary := "Finish with patterns and guidelines to write safer, more maintainable code when working with arrays in C.",
    subtopics := [
      { title := "10.1 Best Practices Checklist",
        summary := "Apply these heuristics to make array usage more robust, self-documenting, and efficient.",
        notes := some [
          "Encapsulate array logic in helper functions that take lengths explicitly.",
          "Favor \x60const\x60 where possible to signal read-only intent.",
          "Use enums or macros to centralize array sizes and prevent mismatches.",
          "Prefer standard library algorithms (\x60qsort\x60, \x60bsearch\x60) when they fit the task."
        ],
        code := none },
      { title := "10.2 Common Mistakes to Avoid",
        summary := "Recognize recurring pitfalls and undefined behaviors associated with array misuse.",
        notes := some [
          "Do not return pointers to stack-allocated arrays.",
          "Avoid mixing pointer arithmetic with incorrect units (e.g., adding bytes instead of elements).",
          "Beware of off-by-one errors when iterating over indices; always double-check loop bounds.",
          "Remember to allocate space for the null terminator when working with strings."
        ],
        code := some [
          { caption := "Off-by-One Bug and Fix",
            content := "#include <stdio.h>\n\nint main(void) \x7b\n    int data[5] = \x7b1, 2, 3, 4, 5\x7d;\n\n    // Buggy: writes past the end when i == 5\n    for (size_t i = 0; i <= 5; ++i) \x7b\n        data[i] = 0; // Undefined behavior when i == 5\n    \x7d\n\n    // Fixed loop\n    for (size_t i = 0; i < 5; ++i) \x7b\n        data[i] = 0;\n    \x7d\n\n    for (size_t i = 0; i < 5; ++i) \x7b\n        printf(\"%d \", data[i]);\n    \x7d\n    puts(\"\");\n    return 0;\n\x7d" }
        ] }
    ] }
]

/-! ### The markup tree

The JSX returned by `Home` is modelled as a tree of elements and text
nodes.  Tag and attribute names are enumerations (the constructor `sect`
stands for the HTML tag `section`, a Lean keyword).  React `key` props
are bookkeeping for the reconciler and do not appear in the produced
markup, so they are not part of the model; `className` values are the
CSS-module keys (`styles.page` etc.), which the renderer treats as
opaque tokens. -/

/-- The HTML tags occurring in the page. -/
inductive Tag where
  | div | main | header | p | h1 | h2 | h3 | nav | ul | li | a
  | sect | article | footer | figure | figcaption | pre | code
deriving DecidableEq

/-- The HTML attributes occurring in the page. -/
inductive AttrName where
  | id | className | href
deriving DecidableEq

/-- A markup node: an element with tag, attributes and children, or a
text node. -/
inductive Node where
  | text : String → Node
  | el : Tag → List (AttrName × String) → List Node → Node

/-- One entry of the quick-navigation list:
`<li><a href={"#" + slugify(topic.title)}>{topic.title}</a></li>`. -/
def renderNavItem (t : Topic) : Node :=
  .el .li [] [.el .a [(.href, (r"#") ++ slugifyS t.title)] [.text t.title]]

/-- One note bullet: `<li>{note}</li>`. -/
def renderNote (n : String) : Node :=
  .el .li [] [.text n]

/-- One code sample:
`<figure><figcaption>{caption}</figcaption><pre><code>{content}</code></pre></figure>`. -/
def renderSample (s : CodeSample) : Node :=
  .el .figure [(.className, (r"codeSample"))]
    [.el .figcaption [] [.text s.caption],
     .el .pre [] [.el .code [] [.text s.content]]]

/-- The conditional notes list `{subtopic.notes && (<ul>…</ul>)}`: an
absent field (`undefined`, here `none`) is falsy and renders nothing; a
present array — even an empty one — is truthy and renders the `<ul>`. -/
def renderNotes (st : Subtopic) : List Node :=
  match st.notes with
  | none => []
  | some ns => [.el .ul [(.className, (r"notes"))] (ns.map renderNote)]

/-- The conditional code group `{subtopic.code && (<div>…</div>)}`,
with the same truthiness behaviour as the notes list. -/
def renderCodeGroup (st : Subtopic) : List Node :=
  match st.code with
  | none => []
  | some cs => [.el .div [(.className, (r"codeGroup"))] (cs.map renderSample)]

/-- One subtopic section: heading, summary, then the conditional notes
list and code group. -/
def renderSubtopic (st : Subtopic) : Node :=
  .el .sect [(.id, slugifyS st.title), (.className, (r"subtopic"))]
    ([.el .h3 [] [.text st.title], .el .p [] [.text st.summary]]
      ++ renderNotes st ++ renderCodeGroup st)

/-- One topic article: heading, summary, and the subtopic sections. -/
def renderTopic (t : Topic) : Node :=
  .el .article [(.id, slugifyS t.title), (.className, (r"topic"))]
    [.el .h2 [] [.text t.title],
     .el .p [(.className, (r"topicSummary"))] [.text t.summary],
     .el .div [(.className, (r"subtopics"))] (t.subtopics.map renderSubtopic)]

/-- The page rendered by `export default function Home()`: hero header
with the quick-navigation list, one article per topic, and the footer. -/
def Home : Node :=
  .el .div [(.className, (r"page"))]
    [.el .main [(.className, (r"main"))]
      [.el .header [(.className, (r"hero"))]
        [.el .p [(.className, (r"kicker"))] [.text (r"Mastering Core C Constructs")],
         .el .h1 [] [.text (r"Arrays in C — Comprehensive Notes & Examples")],
         .el .p [(.className, (r"lede"))]
           [.text (r"A structured reference covering fundamentals, memory behavior, multi-dimensional arrays, pointer interplay, dynamic allocation, and best practices. Each topic includes concise explanations and runnable sample programs.")],
         .el .nav [(.className, (r"toc"))]
           [.el .p [(.className, (r"tocHeading"))] [.text (r"Quick Navigation")],
            .el .ul [] (topics.map renderNavItem)]],
       .el .sect [(.className, (r"topics"))] (topics.map renderTopic),
       .el .footer [(.className, (r"footer"))]
         [.el .p []
           [.text (r"Need a printable copy? Export this page to PDF or integrate the code snippets into your favorite editor to compile and experiment.")]]]]

/-! ### Observations of the markup tree

These functions read the rendered tree back, in document (pre-)order;
the rendering claims equate their values on `Home` with data derived
from the content model. -/

mutual
/-- Number of elements with the given tag in a tree. -/
def tagCount (t : Tag) : Node → Nat
  | .text _ => 0
  | .el tg _ cs => (if tg == t then 1 else 0) + tagCountList t cs
/-- Number of elements with the given tag in a forest. -/
def tagCountList (t : Tag) : List Node → Nat
  | [] => 0
  | n :: ns => tagCount t n + tagCountList t ns
end

mutual
/-- Number of elements carrying the given `className` value in a tree. -/
def classCount (cls : String) : Node → Nat
  | .text _ => 0
  | .el _ attrs cs =>
    (if attrs.contains (AttrName.className, cls) then 1 else 0) + classCountList cls cs
/-- Number of elements carrying the given `className` value in a forest. -/
def classCountList (cls : String) : List Node → Nat
  | [] => 0
  | n :: ns => classCount cls n + classCountList cls ns
end

mutual
/-- The values of all `id` attributes in a tree, in document order. -/
def anchorIds : Node → List String
  | .text _ => []
  | .el _ attrs cs =>
    (match List.lookup AttrName.id attrs with
     | some v => [v]
     | none => []) ++ anchorIdsList cs
/-- The values of all `id` attributes in a forest, in document order. -/
def anchorIdsList : List Node → List String
  | [] => []
  | n :: ns => anchorIds n ++ anchorIdsList ns
end

mutual
/-- All links of the tree, as (href target, label) pairs in document
order, reading anchors of the shape `<a href={…}>{label}</a>`. -/
def navLinks : Node → List (String × String)
  | .text _ => []
  | .el .a [(.href, v)] [.text label] => [(v, label)]
  | .el _ _ cs => navLinksList cs
/-- All links of a forest. -/
def navLinksList : List Node → List (String × String)
  | [] => []
  | n :: ns => navLinks n ++ navLinksList ns
end

/-- The text of a note bullet `<li>{note}</li>`. -/
def liText : Node → List String
  | .el .li _ [.text s] => [s]
  | _ => []

mutual
/-- The bullet texts of all notes lists (`<ul className="notes">`) in a
tree, in document order. -/
def noteTexts : Node → List String
  | .text _ => []
  | .el .ul attrs cs =>
    if attrs.contains (AttrName.className, (r"notes")) then cs.flatMap liText
    else noteTextsList cs
  | .el _ _ cs => noteTextsList cs
/-- The bullet texts of all notes lists in a forest. -/
def noteTextsList : List Node → List String
  | [] => []
  | n :: ns => noteTexts n ++ noteTextsList ns
end

mutual
/-- The (caption, content) pairs of all rendered code figures
`<figure><figcaption>…</figcaption><pre><code>…</code></pre></figure>`
in a tree, in document order. -/
def figureData : Node → List (String × String)
  | .text _ => []
  | .el .figure _ [.el .figcaption _ [.text cap], .el .pre _ [.el .code _ [.text cont]]] =>
    [(cap, cont)]
  | .el _ _ cs => figureDataList cs
/-- The (caption, content) pairs of all rendered code figures in a forest. -/
def figureDataList : List Node → List (String × String)
  | [] => []
  | n :: ns => figureData n ++ figureDataList ns
end

/-- All titles of the content model — every topic title followed by its
subtopic titles, in authored order. -/
def allTitles : List String :=
  topics.flatMap (fun t => t.title :: t.subtopics.map (fun st => st.title))

/-! ### Lemmas and verified claims -/

theorem alnum_ne_hyphen {c : Char} (h : isAlnum c = true) : c ≠ '-' := by
  intro heq; subst heq; exact absurd h (by decide)

theorem dropLeadHyphen_cons_ne {c : Char} (h : c ≠ '-') (t : List Char) :
    dropLeadHyphen (c :: t) = c :: t := by
  unfold dropLeadHyphen
  split
  · rename_i heq; rw [List.cons.injEq] at heq; exact absurd heq.1 h
  · rfl

theorem hyphenate_eq (l : List Char) : hyphenate l = '-' :: dropLeadHyphen l := by
  unfold hyphenate dropLeadHyphen
  split <;> rfl

theorem collapseAux_eq_spec (l : List Char) :
    collapseAux false l = collapseSpec l ∧
    collapseAux true l = dropLeadHyphen (collapseSpec l) := by
  induction l with
  | nil => exact ⟨rfl, rfl⟩
  | cons c rest ih =>
    obtain ⟨ihf, iht⟩ := ih
    by_cases hc : isAlnum c
    · have hcne : c ≠ '-' := alnum_ne_hyphen hc
      constructor
      · simp [collapseAux, collapseSpec, hc, ihf]
      · simp [collapseAux, collapseSpec, hc, ihf, dropLeadHyphen_cons_ne hcne]
    · constructor
      · simp [collapseAux, collapseSpec, hc, iht, hyphenate_eq]
      · simp [collapseAux, collapseSpec, hc, iht, hyphenate_eq, dropLeadHyphen]

theorem dropLeadHyphen_eq_spec (l : List Char) :
    dropLeadHyphen l = stripLeadingSpec l := by
  cases l with
  | nil => rfl
  | cons c t =>
    by_cases hc : c = '-'
    · subst hc; rfl
    · rw [dropLeadHyphen_cons_ne hc]
      simp [stripLeadingSpec, hc]

theorem dropTrailHyphen_cons_cons (x y : Char) (ys : List Char) :
    dropTrailHyphen (x :: y :: ys) = x :: dropTrailHyphen (y :: ys) := by
  conv_lhs => unfold dropTrailHyphen
  split <;> simp_all

theorem dropTrailHyphen_eq_spec (l : List Char) :
    dropTrailHyphen l = stripTrailingSpec l := by
  induction l with
  | nil => rfl
  | cons c d ih =>
    cases d with
    | nil =>
      by_cases hc : c = '-'
      · subst hc; rfl
      · have h1 : dropTrailHyphen [c] = [c] := by
          unfold dropTrailHyphen; split <;> simp_all
        rw [h1]
        simp [stripTrailingSpec, hc]
    | cons e t =>
      rw [dropTrailHyphen_cons_cons, ih]
      by_cases h : (e :: t).getLast? = some '-'
      · simp [stripTrailingSpec, List.getLast?_cons_cons, h]
      · simp [stripTrailingSpec, List.getLast?_cons_cons, h]

theorem slugify_eq_slugifySpec (l : List Char) : slugify l = slugifySpec l := by
  unfold slugify slugifySpec stripEdges collapse
  rw [(collapseAux_eq_spec (l.map lowerChar)).1, dropLeadHyphen_eq_spec,
    dropTrailHyphen_eq_spec]

theorem noDoubleHyphen_tail {c : Char} {l : List Char}
    (h : noDoubleHyphen (c :: l) = true) : noDoubleHyphen l = true := by
  cases l with
  | nil => rfl
  | cons d t =>
    simp only [noDoubleHyphen, Bool.and_eq_true] at h
    exact h.2

theorem noDoubleHyphen_cons_of_ne {c : Char} {l : List Char} (hc : c ≠ '-')
    (h : noDoubleHyphen l = true) : noDoubleHyphen (c :: l) = true := by
  cases l with
  | nil => rfl
  | cons d t =>
    simp only [noDoubleHyphen, Bool.and_eq_true, Bool.not_eq_true']
    exact ⟨by simp [hc], h⟩

theorem collapseAux_all_slugchar (l : List Char) (b : Bool) :
    (collapseAux b l).all (fun c => isAlnum c || c == '-') = true := by
  induction l generalizing b with
  | nil => rfl
  | cons c rest ih =>
    by_cases hc : isAlnum c
    · simp [collapseAux, hc, ih]
    · cases b with
      | true => simpa [collapseAux, hc] using ih true
      | false => simp [collapseAux, hc, ih]

theorem collapseAux_shape (l : List Char) :
    noDoubleHyphen (collapseAux false l) = true ∧
    noDoubleHyphen (collapseAux true l) = true ∧
    (collapseAux true l).head? ≠ some '-' := by
  induction l with
  | nil => exact ⟨rfl, rfl, by simp [collapseAux]⟩
  | cons c rest ih =>
    obtain ⟨ihf, iht, ihh⟩ := ih
    by_cases hc : isAlnum c
    · have hcne : c ≠ '-' := alnum_ne_hyphen hc
      refine ⟨?_, ?_, ?_⟩
      · simpa [collapseAux, hc] using noDoubleHyphen_cons_of_ne hcne ihf
      · simpa [collapseAux, hc] using noDoubleHyphen_cons_of_ne hcne ihf
      · simp [collapseAux, hc, hcne]
    · refine ⟨?_, by simpa [collapseAux, hc] using iht, by simpa [collapseAux, hc] using ihh⟩
      -- collapseAux false (c :: rest) = '-' :: collapseAux true rest
      simp only [collapseAux, hc, if_false]
      cases hX : collapseAux true rest with
      | nil => rfl
      | cons d t =>
        have hd : d ≠ '-' := by
          intro hd; exact ihh (by rw [hX, hd]; rfl)

        simp only [noDoubleHyphen, Bool.and_eq_true, Bool.not_eq_true']
        refine ⟨by simp [hd], by rw [← hX]; exact iht⟩

theorem collapseAux_any (l : List Char) (b : Bool) :
    (collapseAux b l).any isAlnum = l.any isAlnum := by
  induction l generalizing b with
  | nil => rfl
  | cons c rest ih =>
    by_cases hc : isAlnum c
    · simp [collapseAux, hc]
    · have hc2 : isAlnum c = false := by simpa using hc
      have h45 : isAlnum '-' = false := by decide
      cases b with
      | true => simpa [collapseAux, hc] using ih true
      | false => simp [collapseAux, hc, hc2, h45, ih true]

theorem collapseAux_true_nil {l : List Char} (h : l.any isAlnum = false) :
    collapseAux true l = [] := by
  induction l with
  | nil => rfl
  | cons c rest ih =>
    simp only [List.any_cons, Bool.or_eq_false_iff] at h
    simp [collapseAux, h.1, ih h.2]

theorem slugAux_cons_ne {c : Char} (hc : c ≠ '-') (rest : List Char) :
    slugAux (c :: rest) = (isAlnum c && slugAux rest) := by
  conv_lhs => unfold slugAux
  split <;> simp_all

theorem slugAux_of_shape (l : List Char)
    (hall : l.all (fun c => isAlnum c || c == '-') = true)
    (hnd : noDoubleHyphen l = true)
    (hlast : l.getLast? ≠ some '-') : slugAux l = true := by
  induction l using slugAux.induct with
  | case1 => rfl
  | case2 => exact absurd rfl hlast
  | case3 c rest ih =>
    simp only [List.all_cons, Bool.and_eq_true, Bool.or_eq_true] at hall
    have hc : isAlnum c = true := by
      rcases hall.2.1 with h | h
      · exact h
      · have hcc : c = '-' := by simpa using h
        subst hcc
        simp only [noDoubleHyphen, Bool.and_eq_true, Bool.not_eq_true'] at hnd
        simp at hnd
    simp only [slugAux, Bool.and_eq_true]
    refine ⟨hc, ?_⟩
    cases hr : rest with
    | nil => rfl
    | cons e t =>
      subst hr
      refine ih ?_ ?_ ?_
      · simp only [List.all_cons, Bool.and_eq_true] at hall ⊢
        exact hall.2.2
      · exact noDoubleHyphen_tail (noDoubleHyphen_tail hnd)
      · simpa [List.getLast?_cons_cons] using hlast
  | case4 c rest h1 h2 ih =>
    have hcne : c ≠ '-' := by
      intro hcc
      cases rest with
      | nil => exact h1 hcc rfl
      | cons e t => exact h2 e t hcc rfl
    simp only [List.all_cons, Bool.and_eq_true, Bool.or_eq_true] at hall
    have hc : isAlnum c = true := by
      rcases hall.1 with h | h
      · exact h
      · exact absurd (by simpa using h) hcne
    rw [slugAux_cons_ne hcne, Bool.and_eq_true]
    refine ⟨hc, ?_⟩
    cases hr : rest with
    | nil => rfl
    | cons e t =>
      subst hr
      refine ih ?_ ?_ ?_
      · simp only [List.all_eq_true] at hall ⊢
        exact fun c hc => hall.2 c hc
      · exact noDoubleHyphen_tail hnd
      · simpa [List.getLast?_cons_cons] using hlast

theorem noDoubleHyphen_dropLast {l : List Char} (h : noDoubleHyphen l = true) :
    noDoubleHyphen l.dropLast = true := by
  induction l with
  | nil => rfl
  | cons c rest ih =>
    cases rest with
    | nil => rfl
    | cons d t =>
      simp only [noDoubleHyphen, Bool.and_eq_true, Bool.not_eq_true'] at h
      have h2 := ih h.2
      cases t with
      | nil => rfl
      | cons e u =>
        simp only [List.dropLast_cons₂] at h2 ⊢
        simp only [noDoubleHyphen, Bool.and_eq_true, Bool.not_eq_true']
        exact ⟨h.1, h2⟩

theorem getLast?_dropLast_ne {l : List Char} (hnd : noDoubleHyphen l = true)
    (hl : l.getLast? = some '-') : l.dropLast.getLast? ≠ some '-' := by
  induction l with
  | nil => simp
  | cons c rest ih =>
    cases rest with
    | nil => simp
    | cons d t =>
      simp only [noDoubleHyphen, Bool.and_eq_true, Bool.not_eq_true'] at hnd
      cases t with
      | nil =>
        simp only [List.getLast?_cons_cons, List.getLast?_singleton, Option.some.injEq] at hl
        subst hl
        simp only [Bool.and_eq_false_iff, beq_eq_false_iff_ne, ne_eq] at hnd
        rcases hnd.1 with h | h
        · simp [List.dropLast, h]
        · simp at h
      | cons e u =>
        have h3 := ih hnd.2 (by simpa [List.getLast?_cons_cons] using hl)
        simp only [List.dropLast_cons₂, List.getLast?_cons_cons] at h3 ⊢
        exact h3

theorem all_dropLast {p : Char → Bool} {l : List Char} (h : l.all p = true) :
    l.dropLast.all p = true := by
  simp only [List.all_eq_true] at h ⊢
  exact fun x hx => h x (List.dropLast_sublist l |>.subset hx)

theorem stripEdges_collapse_empty {l : List Char} (h : l.any isAlnum = false) :
    stripEdges (collapse l) = [] := by
  cases l with
  | nil => rfl
  | cons c rest =>
    simp only [List.any_cons, Bool.or_eq_false_iff] at h
    have h1 : collapse (c :: rest) = ['-'] := by
      simp [collapse, collapseAux, h.1, collapseAux_true_nil h.2]
    rw [h1]
    rfl

theorem lead_strip_shape {m : List Char} (hany : m.any isAlnum = true)
    (hall : m.all (fun c => isAlnum c || c == '-') = true)
    (hnd : noDoubleHyphen m = true) :
    ∃ c t, stripLeadingSpec m = c :: t ∧ isAlnum c = true ∧
      ((c :: t).all (fun c => isAlnum c || c == '-')) = true ∧
      noDoubleHyphen (c :: t) = true := by
  cases m with
  | nil => simp at hany
  | cons c0 t0 =>
    by_cases hc : c0 = '-'
    · subst hc
      have hany0 : t0.any isAlnum = true := by
        simpa [isAlnum] using hany
      cases t0 with
      | nil => simp at hany0
      | cons c1 t1 =>
        refine ⟨c1, t1, ?_, ?_, ?_, ?_⟩
        · rfl
        · simp only [noDoubleHyphen, Bool.and_eq_true, Bool.not_eq_true'] at hnd
          simp only [List.all_cons, Bool.and_eq_true, Bool.or_eq_true] at hall
          rcases hall.2.1 with h | h
          · exact h
          · have : c1 = '-' := by simpa using h
            subst this
            simp at hnd
        · simp only [List.all_cons, Bool.and_eq_true] at hall ⊢
          exact hall.2
        · exact noDoubleHyphen_tail hnd
    · refine ⟨c0, t0, ?_, ?_, hall, hnd⟩
      · simp [stripLeadingSpec, hc]
      · simp only [List.all_cons, Bool.and_eq_true, Bool.or_eq_true] at hall
        rcases hall.1 with h | h
        · exact h
        · exact absurd (by simpa using h) hc

theorem isSlug_stripTrailing {c : Char} {t : List Char} (hc : isAlnum c = true)
    (hall : (c :: t).all (fun c => isAlnum c || c == '-') = true)
    (hnd : noDoubleHyphen (c :: t) = true) :
    isSlug (stripTrailingSpec (c :: t)) = true := by
  have hcne : c ≠ '-' := alnum_ne_hyphen hc
  by_cases hl : (c :: t).getLast? = some '-'
  · have ht : t ≠ [] := by
      intro he; subst he
      simp only [List.getLast?_singleton, Option.some.injEq] at hl
      exact hcne hl
    obtain ⟨e, u, rfl⟩ : ∃ e u, t = e :: u := by
      cases t with
      | nil => exact absurd rfl ht
      | cons e u => exact ⟨e, u, rfl⟩
    have hl2 : (e :: u).getLast? = some '-' := by
      simpa [List.getLast?_cons_cons] using hl
    have hnd2 : noDoubleHyphen (e :: u) = true := noDoubleHyphen_tail hnd
    simp only [stripTrailingSpec, hl, if_pos, List.dropLast_cons₂]
    simp only [isSlug, Bool.and_eq_true]
    refine ⟨hc, slugAux_of_shape _ ?_ ?_ ?_⟩
    · apply all_dropLast
      rw [List.all_cons, Bool.and_eq_true] at hall
      exact hall.2
    · exact noDoubleHyphen_dropLast hnd2
    · exact getLast?_dropLast_ne hnd2 hl2
  · simp only [stripTrailingSpec, hl, if_neg, ite_false]
    simp only [isSlug, Bool.and_eq_true]
    refine ⟨hc, slugAux_of_shape _ ?_ ?_ ?_⟩
    · simp only [List.all_cons, Bool.and_eq_true] at hall
      exact hall.2
    · exact noDoubleHyphen_tail hnd
    · cases t with
      | nil => simp
      | cons e u => simpa [List.getLast?_cons_cons] using hl

theorem isSlug_slugify {l : List Char} (h : hasAlnum l = true) :
    isSlug (slugify l) = true := by
  have hany : (l.map lowerChar).any isAlnum = true := by
    rw [List.any_map]; simpa [hasAlnum, Function.comp_def] using h
  have hall := collapseAux_all_slugchar (l.map lowerChar) false
  have hnd := (collapseAux_shape (l.map lowerChar)).1
  have hany2 : (collapse (l.map lowerChar)).any isAlnum = true := by
    rw [collapse, collapseAux_any]; exact hany
  obtain ⟨c, t, heq, hc, hall2, hnd2⟩ := lead_strip_shape hany2 hall hnd
  have hslug : slugify l
      = stripTrailingSpec (stripLeadingSpec (collapse (l.map lowerChar))) := by
    rw [slugify, stripEdges, dropLeadHyphen_eq_spec, dropTrailHyphen_eq_spec]
  rw [hslug, heq]
  exact isSlug_stripTrailing hc hall2 hnd2

theorem slugify_eq_nil_iff (l : List Char) :
    slugify l = [] ↔ hasAlnum l = false := by
  constructor
  · intro h
    cases hh : hasAlnum l with
    | false => rfl
    | true =>
      have := isSlug_slugify hh
      rw [h] at this
      exact absurd this (by decide)
  · intro h
    have h2 : (l.map lowerChar).any isAlnum = false := by
      rw [List.any_map]; simpa [hasAlnum, Function.comp_def] using h
    exact stripEdges_collapse_empty h2

theorem slugAux_all {l : List Char} (h : slugAux l = true) :
    l.all (fun c => isAlnum c || c == '-') = true := by
  induction l using slugAux.induct with
  | case1 => rfl
  | case2 => simp [slugAux] at h
  | case3 c rest ih =>
    simp only [slugAux, Bool.and_eq_true] at h
    simp only [List.all_cons, Bool.and_eq_true, Bool.or_eq_true]
    exact ⟨Or.inr (by simp), Or.inl h.1, by simpa [List.all_eq_true] using ih h.2⟩
  | case4 c rest h1 h2 ih =>
    have hcne : c ≠ '-' := by
      intro hcc
      cases rest with
      | nil => exact h1 hcc rfl
      | cons e t => exact h2 e t hcc rfl
    rw [slugAux_cons_ne hcne, Bool.and_eq_true] at h
    simp only [List.all_cons, Bool.and_eq_true, Bool.or_eq_true]
    exact ⟨Or.inl h.1, ih h.2⟩

theorem slugAux_last {l : List Char} (h : slugAux l = true) :
    l.getLast? ≠ some '-' := by
  induction l using slugAux.induct with
  | case1 => simp
  | case2 => simp [slugAux] at h
  | case3 c rest ih =>
    simp only [slugAux, Bool.and_eq_true] at h
    cases hr : rest with
    | nil =>
      simp only [List.getLast?_cons_cons, List.getLast?_singleton, Option.some.injEq]
      intro he
      have hce : c = '-' := by injection he
      rw [hce] at h
      exact absurd h.1 (by decide)
    | cons e t =>
      subst hr
      simpa [List.getLast?_cons_cons] using ih h.2
  | case4 c rest h1 h2 ih =>
    have hcne : c ≠ '-' := by
      intro hcc
      cases rest with
      | nil => exact h1 hcc rfl
      | cons e t => exact h2 e t hcc rfl
    rw [slugAux_cons_ne hcne, Bool.and_eq_true] at h
    cases hr : rest with
    | nil => simpa using hcne
    | cons e t =>
      subst hr
      simpa [List.getLast?_cons_cons] using ih h.2

theorem slugAux_noDouble {l : List Char} (h : slugAux l = true) :
    noDoubleHyphen l = true := by
  induction l using slugAux.induct with
  | case1 => rfl
  | case2 => simp [slugAux] at h
  | case3 c rest ih =>
    simp only [slugAux, Bool.and_eq_true] at h
    have hcne : c ≠ '-' := alnum_ne_hyphen h.1
    have hrest : noDoubleHyphen (c :: rest) = true :=
      noDoubleHyphen_cons_of_ne hcne (ih h.2)
    simp only [noDoubleHyphen, Bool.and_eq_true, Bool.not_eq_true']
    exact ⟨by simp [hcne], hrest⟩
  | case4 c rest h1 h2 ih =>
    have hcne : c ≠ '-' := by
      intro hcc
      cases rest with
      | nil => exact h1 hcc rfl
      | cons e t => exact h2 e t hcc rfl
    rw [slugAux_cons_ne hcne, Bool.and_eq_true] at h
    exact noDoubleHyphen_cons_of_ne hcne (ih h.2)

theorem lowerChar_fix {c : Char} (h : (isAlnum c || c == '-') = true) :
    lowerChar c = c := by
  rcases Bool.or_eq_true _ _ |>.mp h with h | h
  · simp only [isAlnum, Bool.or_eq_true, Bool.and_eq_true, decide_eq_true_eq] at h
    rw [lowerChar, if_neg]
    omega
  · have : c = '-' := by simpa using h
    subst this
    decide

theorem map_lower_fix {l : List Char}
    (h : l.all (fun c => isAlnum c || c == '-') = true) :
    l.map lowerChar = l := by
  induction l with
  | nil => rfl
  | cons c rest ih =>
    simp only [List.all_cons, Bool.and_eq_true] at h
    simp only [List.map_cons, lowerChar_fix h.1, ih h.2]

theorem collapse_slugAux {l : List Char} (h : slugAux l = true) :
    collapseAux false l = l := by
  induction l using slugAux.induct with
  | case1 => rfl
  | case2 => simp [slugAux] at h
  | case3 c rest ih =>
    simp only [slugAux, Bool.and_eq_true] at h
    have h45 : isAlnum '-' = false := by decide
    simp [collapseAux, h45, h.1, ih h.2]
  | case4 c rest h1 h2 ih =>
    have hcne : c ≠ '-' := by
      intro hcc
      cases rest with
      | nil => exact h1 hcc rfl
      | cons e t => exact h2 e t hcc rfl
    rw [slugAux_cons_ne hcne, Bool.and_eq_true] at h
    simp [collapseAux, h.1, ih h.2]

theorem slugify_fix {m : List Char} (h : isSlug m = true) : slugify m = m := by
  obtain ⟨c, t, rfl⟩ : ∃ c t, m = c :: t := by
    cases m with
    | nil => simp [isSlug] at h
    | cons c t => exact ⟨c, t, rfl⟩
  simp only [isSlug, Bool.and_eq_true] at h
  have hcne : c ≠ '-' := alnum_ne_hyphen h.1
  have hall : (c :: t).all (fun c => isAlnum c || c == '-') = true := by
    simp only [List.all_cons, Bool.and_eq_true, Bool.or_eq_true]
    exact ⟨Or.inl h.1, slugAux_all h.2⟩
  have hcoll : collapseAux false (c :: t) = c :: t := by
    have h45 : isAlnum '-' = false := by decide
    simp [collapseAux, h.1, collapse_slugAux h.2]
  rw [slugify, map_lower_fix hall, collapse, hcoll, stripEdges,
    dropLeadHyphen_cons_ne hcne, dropTrailHyphen_eq_spec, stripTrailingSpec,
    if_neg]
  cases hr : t with
  | nil => simpa using hcne
  | cons e u =>
    subst hr
    simpa [List.getLast?_cons_cons] using slugAux_last h.2

theorem slugify_idem (l : List Char) : slugify (slugify l) = slugify l := by
  cases hh : hasAlnum l with
  | false =>
    rw [(slugify_eq_nil_iff l).mpr hh]
    rfl
  | true => exact slugify_fix (isSlug_slugify hh)

theorem isSlug_all {m : List Char} (h : isSlug m = true) :
    m.all (fun c => isAlnum c || c == '-') = true := by
  obtain ⟨c, t, rfl⟩ : ∃ c t, m = c :: t := by
    cases m with
    | nil => simp [isSlug] at h
    | cons c t => exact ⟨c, t, rfl⟩
  simp only [isSlug, Bool.and_eq_true] at h
  simp only [List.all_cons, Bool.and_eq_true, Bool.or_eq_true]
  exact ⟨Or.inl h.1, slugAux_all h.2⟩

theorem isSlug_noDouble {m : List Char} (h : isSlug m = true) :
    noDoubleHyphen m = true := by
  obtain ⟨c, t, rfl⟩ : ∃ c t, m = c :: t := by
    cases m with
    | nil => simp [isSlug] at h
    | cons c t => exact ⟨c, t, rfl⟩
  simp only [isSlug, Bool.and_eq_true] at h
  exact noDoubleHyphen_cons_of_ne (alnum_ne_hyphen h.1) (slugAux_noDouble h.2)

theorem isSlug_head {m : List Char} (h : isSlug m = true) :
    m.head? ≠ some '-' := by
  obtain ⟨c, t, rfl⟩ : ∃ c t, m = c :: t := by
    cases m with
    | nil => simp [isSlug] at h
    | cons c t => exact ⟨c, t, rfl⟩
  simp only [isSlug, Bool.and_eq_true] at h
  simpa using alnum_ne_hyphen h.1

theorem isSlug_last {m : List Char} (h : isSlug m = true) :
    m.getLast? ≠ some '-' := by
  obtain ⟨c, t, rfl⟩ : ∃ c t, m = c :: t := by
    cases m with
    | nil => simp [isSlug] at h
    | cons c t => exact ⟨c, t, rfl⟩
  simp only [isSlug, Bool.and_eq_true] at h
  cases t with
  | nil => simpa using alnum_ne_hyphen h.1
  | cons e u => simpa [List.getLast?_cons_cons] using slugAux_last h.2

theorem slugify_wellFormed (l : List Char) :
    (slugify l).all (fun c => isAlnum c || c == '-') = true ∧
    noDoubleHyphen (slugify l) = true ∧
    (slugify l).head? ≠ some '-' ∧
    (slugify l).getLast? ≠ some '-' := by
  cases hh : hasAlnum l with
  | false =>
    rw [(slugify_eq_nil_iff l).mpr hh]
    exact ⟨rfl, rfl, by simp, by simp⟩
  | true =>
    have h := isSlug_slugify hh
    exact ⟨isSlug_all h, isSlug_noDouble h, isSlug_head h, isSlug_last h⟩

theorem tagCountList_append (t : Tag) (xs ys : List Node) :
    tagCountList t (xs ++ ys) = tagCountList t xs + tagCountList t ys := by
  induction xs with
  | nil => simp [tagCountList]
  | cons n ns ih => simp [tagCountList, ih]; omega

theorem tagCount_renderNote (t : Tag) (n : String) :
    tagCount t (renderNote n) = if Tag.li == t then 1 else 0 := rfl

theorem tagCountList_notes_li (ns : List String) :
    tagCountList .li (ns.map renderNote) = ns.length := by
  induction ns with
  | nil => rfl
  | cons n rest ih => simp [tagCountList, tagCount_renderNote, ih]; omega

theorem tagCountList_notes_ne (t : Tag) (h : Tag.li ≠ t) (ns : List String) :
    tagCountList t (ns.map renderNote) = 0 := by
  induction ns with
  | nil => rfl
  | cons n rest ih =>
    simp only [List.map_cons, tagCountList, tagCount_renderNote, ih]
    simp [h]

theorem tagCount_renderSample (t : Tag) (s : CodeSample) :
    tagCount t (renderSample s) =
      (if Tag.figure == t then 1 else 0) + (if Tag.figcaption == t then 1 else 0)
        + (if Tag.pre == t then 1 else 0) + (if Tag.code == t then 1 else 0) := by
  simp [renderSample, tagCount, tagCountList]
  omega

theorem tagCountList_samples_figure (cs : List CodeSample) :
    tagCountList .figure (cs.map renderSample) = cs.length := by
  induction cs with
  | nil => rfl
  | cons s rest ih => simp [tagCountList, tagCount_renderSample, ih]; omega

theorem tagCountList_samples_ne (t : Tag) (h1 : Tag.figure ≠ t)
    (h2 : Tag.figcaption ≠ t) (h3 : Tag.pre ≠ t) (h4 : Tag.code ≠ t)
    (cs : List CodeSample) : tagCountList t (cs.map renderSample) = 0 := by
  induction cs with
  | nil => rfl
  | cons s rest ih =>
    simp only [List.map_cons, tagCountList, tagCount_renderSample, ih]
    simp [h1, h2, h3, h4]

theorem tagCount_renderSubtopic (t : Tag) (st : Subtopic) :
    tagCount t (renderSubtopic st) =
      (if Tag.sect == t then 1 else 0) + (if Tag.h3 == t then 1 else 0)
        + (if Tag.p == t then 1 else 0)
        + tagCountList t (renderNotes st) + tagCountList t (renderCodeGroup st) := by
  simp [renderSubtopic, tagCount, tagCountList, tagCountList_append]
  omega

/-- Claim C1: for every input string, `slugify` computes exactly the
spec's four-step reference algorithm — lowercase, collapse every maximal
run of characters outside `[a-z0-9]` to a single hyphen, then strip a
leading and a trailing hyphen. -/
theorem slugify_refines_spec (s : String) : slugifyS s = slugifySpecS s := by
  unfold slugifyS slugifySpecS
  rw [slugify_eq_slugifySpec]

/-- Claim C2: whenever some character of the input lowercases into
`[a-z0-9]`, the slug matches `^[a-z0-9]+(-[a-z0-9]+)*$`; and the slug is
empty exactly when the input has no such character. -/
theorem slugify_regex_shape (s : String) :
    (hasAlnum s.data = true → isSlug (slugifyS s).data = true) ∧
    ((slugifyS s).data = [] ↔ hasAlnum s.data = false) := by
  constructor
  · intro h
    exact isSlug_slugify h
  · exact slugify_eq_nil_iff s.data

/-- Witness for C2 at the concrete inputs `"a b!"` (which has
alphanumeric characters) and `"!?"` (which has none). -/
theorem slugify_regex_shape_witness :
    isSlug (slugifyS (r"a b!")).data = true ∧ (slugifyS (r"!?")).data = [] :=
  ⟨(slugify_regex_shape (r"a b!")).1 (by decide),
   (slugify_regex_shape (r"!?")).2.mpr (by decide)⟩

/-- Claim C3: `slugify` is idempotent — re-slugifying its own output
returns that output unchanged, for every string. -/
theorem slugify_idempotent (s : String) : slugifyS (slugifyS s) = slugifyS s := by
  unfold slugifyS
  rw [show (String.mk (slugify s.data)).data = slugify s.data from rfl, slugify_idem]

/-- Claim C4: the three concrete examples of the spec evaluate to their
expected outputs. -/
theorem slugify_spec_examples :
    slugifyS (r"2.2 Initializer Lists") = (r"2-2-initializer-lists") ∧
    slugifyS (r"Arrays and Pointers") = (r"arrays-and-pointers") ∧
    slugifyS (r"  Leading/Trailing!!") = (r"leading-trailing") := by
  refine ⟨by decide, by decide, by decide⟩

set_option maxRecDepth 16384 in
/-- Claim C5: the rendered page has one navigation entry per topic, in
order, each a link to `#` + slug labelled with the topic title; the
anchor identifiers of the document are exactly the topic and subtopic
slugs in authored (document) order; there are exactly as many topic
sections as topics and as many subtopic sections as subtopics; and the
note texts and code-sample captions appear in exactly authored order. -/
theorem rendering_structure :
    navLinks Home = topics.map (fun t => ((r"#") ++ slugifyS t.title, t.title)) ∧
    anchorIds Home
      = topics.flatMap
          (fun t => slugifyS t.title :: t.subtopics.map (fun st => slugifyS st.title)) ∧
    classCount (r"topic") Home = topics.length ∧
    classCount (r"subtopic") Home = (topics.map (fun t => t.subtopics.length)).sum ∧
    noteTexts Home
      = topics.flatMap (fun t => t.subtopics.flatMap (fun st => st.notes.getD [])) ∧
    (figureData Home).map (fun pr => pr.1)
      = topics.flatMap (fun t => t.subtopics.flatMap
          (fun st => (st.code.getD []).map (fun s => s.caption))) := by
  refine ⟨by decide, by decide, by decide, by decide, by decide, by decide⟩

/-- Claim C6: a subtopic with no notes field renders no notes list and
no note items at all; one with no code field renders no code group and
no figures; and one with an empty code list renders zero figures. -/
theorem subtopic_omits_absent_sections (st : Subtopic) :
    (st.notes = none →
      tagCount .ul (renderSubtopic st) = 0 ∧ tagCount .li (renderSubtopic st) = 0) ∧
    (st.code = none →
      tagCount .div (renderSubtopic st) = 0 ∧ tagCount .figure (renderSubtopic st) = 0) ∧
    (st.code = some [] → tagCount .figure (renderSubtopic st) = 0) := by
  refine ⟨fun hn => ⟨?_, ?_⟩, fun hc => ⟨?_, ?_⟩, fun hc => ?_⟩
  · rw [tagCount_renderSubtopic]
    simp only [renderNotes, hn]
    cases hcc : st.code with
    | none => simp [renderCodeGroup, hcc, tagCountList, tagCount]
    | some cs =>
      simp [renderCodeGroup, hcc, tagCountList, tagCount,
        tagCountList_samples_ne .ul (by decide) (by decide) (by decide) (by decide)]
  · rw [tagCount_renderSubtopic]
    simp only [renderNotes, hn]
    cases hcc : st.code with
    | none => simp [renderCodeGroup, hcc, tagCountList, tagCount]
    | some cs =>
      simp [renderCodeGroup, hcc, tagCountList, tagCount,
        tagCountList_samples_ne .li (by decide) (by decide) (by decide) (by decide)]
  · rw [tagCount_renderSubtopic]
    simp only [renderCodeGroup, hc]
    cases hnn : st.notes with
    | none => simp [renderNotes, hnn, tagCountList, tagCount]
    | some ns =>
      simp [renderNotes, hnn, tagCountList, tagCount,
        tagCountList_notes_ne .div (by decide)]
  · rw [tagCount_renderSubtopic]
    simp only [renderCodeGroup, hc]
    cases hnn : st.notes with
    | none => simp [renderNotes, hnn, tagCountList, tagCount]
    | some ns =>
      simp [renderNotes, hnn, tagCountList, tagCount,
        tagCountList_notes_ne .figure (by decide)]
  · rw [tagCount_renderSubtopic]
    simp only [renderCodeGroup, hc]
    cases hnn : st.notes with
    | none => simp [renderNotes, hnn, tagCountList, tagCount, tagCountList_samples_figure]
    | some ns =>
      simp [renderNotes, hnn, tagCountList, tagCount, tagCountList_samples_figure,
        tagCountList_notes_ne .figure (by decide)]

/-- Witness for C6 at two concrete subtopics: one with both optional
fields absent, one with a present-but-empty code list. -/
theorem subtopic_omits_absent_sections_witness :
    (tagCount .ul (renderSubtopic (Subtopic.mk (r"t") (r"s") none none)) = 0 ∧
     tagCount .li (renderSubtopic (Subtopic.mk (r"t") (r"s") none none)) = 0) ∧
    (tagCount .div (renderSubtopic (Subtopic.mk (r"t") (r"s") none none)) = 0 ∧
     tagCount .figure (renderSubtopic (Subtopic.mk (r"t") (r"s") none none)) = 0) ∧
    tagCount .figure (renderSubtopic (Subtopic.mk (r"t") (r"s") none (some []))) = 0 :=
  ⟨(subtopic_omits_absent_sections (Subtopic.mk (r"t") (r"s") none none)).1 rfl,
   (subtopic_omits_absent_sections (Subtopic.mk (r"t") (r"s") none none)).2.1 rfl,
   (subtopic_omits_absent_sections (Subtopic.mk (r"t") (r"s") none (some []))).2.2 rfl⟩

set_option maxRecDepth 16384 in
/-- Claim C7: the authored content model has ten topics and twenty-one
subtopics, every title slugifies to a non-empty slug, and the
thirty-one slugs are pairwise distinct. -/
theorem content_model_slugs_unique :
    topics.length = 10 ∧
    (topics.map (fun t => t.subtopics.length)).sum = 21 ∧
    allTitles.all (fun t => !(slugifyS t).isEmpty) = true ∧
    (allTitles.map slugifyS).Nodup := by
  refine ⟨by decide, by decide, by decide, by decide⟩

set_option maxRecDepth 16384 in
/-- Claim C8: the figures of the rendered page carry exactly the
authored (caption, content) pairs, in authored order, byte for byte. -/
theorem code_samples_rendered_verbatim :
    figureData Home
      = topics.flatMap (fun t => t.subtopics.flatMap
          (fun st => (st.code.getD []).map (fun s => (s.caption, s.content)))) := by
  decide

/-- Claim C9: `slugify` is total; it maps the empty string to the empty
string, and for every string the output consists only of `[a-z0-9]` and
hyphen characters, never starts or ends with a hyphen, and never has two
adjacent hyphens. -/
theorem slugify_total_output_shape :
    slugifyS (r"") = (r"") ∧
    ∀ s : String,
      (slugifyS s).data.all (fun c => isAlnum c || c == '-') = true ∧
      noDoubleHyphen (slugifyS s).data = true ∧
      ((slugifyS s).data.head? == some '-') = false ∧
      ((slugifyS s).data.getLast? == some '-') = false := by
  refine ⟨by decide, fun s => ?_⟩
  obtain ⟨h1, h2, h3, h4⟩ := slugify_wellFormed s.data
  exact ⟨h1, h2, by simpa using h3, by simpa using h4⟩

/-- Claim C10: the renderer distinguishes a present-but-empty list from
an absent field — a subtopic whose notes field is an empty list still
renders its notes list element (with zero items), and one whose code
field is an empty list still renders its code-group container (with
zero figures). -/
theorem renderer_keeps_empty_list_containers (st : Subtopic) :
    (st.notes = some [] →
      tagCount .ul (renderSubtopic st) = 1 ∧ tagCount .li (renderSubtopic st) = 0) ∧
    (st.code = some [] →
      tagCount .div (renderSubtopic st) = 1 ∧ tagCount .figure (renderSubtopic st) = 0) := by
  refine ⟨fun hn => ⟨?_, ?_⟩, fun hc => ⟨?_, ?_⟩⟩
  · rw [tagCount_renderSubtopic]
    simp only [renderNotes, hn]
    cases hcc : st.code with
    | none => simp [renderCodeGroup, hcc, tagCountList, tagCount]
    | some cs =>
      simp [renderCodeGroup, hcc, tagCountList, tagCount,
        tagCountList_samples_ne .ul (by decide) (by decide) (by decide) (by decide)]
  · rw [tagCount_renderSubtopic]
    simp only [renderNotes, hn]
    cases hcc : st.code with
    | none => simp [renderCodeGroup, hcc, tagCountList, tagCount]
    | some cs =>
      simp [renderCodeGroup, hcc, tagCountList, tagCount,
        tagCountList_samples_ne .li (by decide) (by decide) (by decide) (by decide)]
  · rw [tagCount_renderSubtopic]
    simp only [renderCodeGroup, hc]
    cases hnn : st.notes with
    | none => simp [renderNotes, hnn, tagCountList, tagCount]
    | some ns =>
      simp [renderNotes, hnn, tagCountList, tagCount,
        tagCountList_notes_ne .div (by decide)]
  · rw [tagCount_renderSubtopic]
    simp only [renderCodeGroup, hc]
    cases hnn : st.notes with
    | none => simp [renderNotes, hnn, tagCountList, tagCount]
    | some ns =>
      simp [renderNotes, hnn, tagCountList, tagCount,
        tagCountList_notes_ne .figure (by decide)]

/-- Witness for C10 at a concrete subtopic whose notes and code fields
are both present but empty. -/
theorem renderer_keeps_empty_list_containers_witness :
    (tagCount .ul (renderSubtopic (Subtopic.mk (r"t") (r"s") (some []) (some []))) = 1 ∧
     tagCount .li (renderSubtopic (Subtopic.mk (r"t") (r"s") (some []) (some []))) = 0) ∧
    (tagCount .div (renderSubtopic (Subtopic.mk (r"t") (r"s") (some []) (some []))) = 1 ∧
     tagCount .figure (renderSubtopic (Subtopic.mk (r"t") (r"s") (some []) (some []))) = 0) :=
  ⟨(renderer_keeps_empty_list_containers (Subtopic.mk (r"t") (r"s") (some []) (some []))).1 rfl,
   (renderer_keeps_empty_list_containers (Subtopic.mk (r"t") (r"s") (some []) (some []))).2 rfl⟩
